import Mathlib

/-!
Verification development for the Neo4j access layer of the wisdom-book
repository: `backend/neo4j_app/neo4j_service.py` (service, retry loop,
error classification) and `backend/neo4j_app/middleware/query_logger.py`
(query logger, slow-query analyzer).

The Python code is shallowly embedded: dictionaries become ordered
association lists, floats become rationals, the Neo4j engine becomes an
oracle assigning an outcome to every execution attempt, and the logging
side effects become explicit lists of emitted records.
-/

/-! ## String helpers (Python `in`, `str.lower`, `"\n".join`) -/

/-- `startsWithSeq p l` is true when the char sequence `p` starts the sequence `l`
(Python slice-equality at position 0). -/
def startsWithSeq : List Char → List Char → Bool
  | [], _ => true
  | _ :: _, [] => false
  | p :: ps, c :: cs => p == c && startsWithSeq ps cs

/-- `containsSeq p l` is true when `p` occurs contiguously inside `l`
(Python substring containment on char lists). -/
def containsSeq (p : List Char) : List Char → Bool
  | [] => startsWithSeq p []
  | c :: cs => startsWithSeq p (c :: cs) || containsSeq p cs

/-- Python `pat in s` for strings. -/
def strContains (s pat : String) : Bool :=
  containsSeq pat.data s.data

/-- Python `str.lower()` (ASCII case folding, applied characterwise; an
executable counterpart of `String.toLower`). -/
def strLower (s : String) : String :=
  String.mk (s.data.map Char.toLower)

/-- Whitespace test used by `strip` (space, tab, newline, carriage
return). -/
def isSpaceChar (c : Char) : Bool :=
  c == ' ' || c == '\t' || c == '\n' || c == '\r'

/-- Python `str.strip()`: drop leading and trailing whitespace. -/
def strTrim (s : String) : String :=
  String.mk (((s.data.dropWhile isSpaceChar).reverse.dropWhile isSpaceChar).reverse)

/-- Helper for `splitLines`: accumulate the current segment (reversed). -/
def splitLinesAux : List Char → List Char → List String
  | acc, [] => [String.mk acc.reverse]
  | acc, c :: cs =>
    if c == '\n' then String.mk acc.reverse :: splitLinesAux [] cs
    else splitLinesAux (c :: acc) cs

/-- Python `s.split("\n")`. -/
def splitLines (s : String) : List String :=
  splitLinesAux [] s.data

/-- Python `sep.join(parts)`. -/
def joinSep (sep : String) : List String → String
  | [] => ""
  | [x] => x
  | x :: xs => x ++ sep ++ joinSep sep xs

/-- Python `"\n".join(details)`. -/
def joinNL : List String → String
  | [] => ""
  | [s] => s
  | s :: ss => s ++ "\n" ++ joinNL ss

/-- Python truthiness of an optional string (`None` and `""` are falsy). -/
def strTruthy : Option String → Bool
  | none => false
  | some s => !(s == "")

/-- Parameter maps are ordered association lists (Python dicts preserve
insertion order). Values are modelled as strings. -/
abbrev Params := List (String × String)

/-- Python truthiness of an optional parameter dict (`None` and `{}` falsy). -/
def paramsTruthy : Option Params → Bool
  | none => false
  | some ps => !ps.isEmpty

/-! ## Redaction (`neo4j_service.Neo4jQueryError.__init__` and
`query_logger.log_query`) -/

/-- The tuple checked by `Neo4jQueryError.__init__`:
`k.lower() not in ('password', 'secret', 'token', 'key')` — exact
(case-insensitive) key equality. -/
def ERROR_REDACT_KEYS : List String := ["password", "secret", "token", "key"]

/-- `DEFAULT_CONFIG["redact_fields"]` of the query logger. -/
def DEFAULT_REDACT_FIELDS : List String := ["password", "token", "secret", "key"]

/-- The error class redaction: `{k: (v if k.lower() not in (...) else
'[REDACTED]') for k, v in params.items()}`. -/
def errorSafeParams (params : Params) : Params :=
  params.map fun kv =>
    (kv.1, if ERROR_REDACT_KEYS.contains (strLower kv.1) then "[REDACTED]" else kv.2)

/-- The logger denylist test: `any(field.lower() in k.lower() for field in
config["redact_fields"])` — case-insensitive substring match. -/
def keyMatchesDenylist (redactFields : List String) (k : String) : Bool :=
  redactFields.any fun field => strContains (strLower k) (strLower field)

/-- The logger redaction comprehension in `log_query`. -/
def loggerRedactParams (redactFields : List String) (params : Params) : Params :=
  params.map fun kv =>
    (kv.1, if keyMatchesDenylist redactFields kv.1 then "[REDACTED]" else kv.2)

/-- Rendering of a parameter dict into the error message
(`f"Params: {safe_params}"`); braces and `key: value` pairs in insertion
order stand for the Python dict repr. -/
def renderParams (ps : Params) : String :=
  "\x7b" ++ joinSep ", " (ps.map fun kv => kv.1 ++ ": " ++ kv.2) ++ "\x7d"

/-! ## The Diagnostic Error (`Neo4jQueryError`) -/

/-- The `Neo4jQueryError` exception: its constructor arguments, which are
also stored as attributes (`self.query_name`, `self.cypher`, `self.params`,
`self.guidance`). -/
structure Neo4jQueryError where
  message : String
  query_name : String
  cypher : Option String
  params : Option Params
  guidance : Option String
deriving DecidableEq, Repr

/-- `"\n    ".join(cypher.strip().split("\n"))`. -/
def formatCypher (c : String) : String :=
  joinSep "\n    " (splitLines (strTrim c))

/-- The `details` list built by `Neo4jQueryError.__init__` (each `if` block
appends one entry; `if cypher:` / `if params:` / `if guidance:` use Python
truthiness). -/
def errorDetails (message query_name : String) (cypher : Option String)
    (params : Option Params) (guidance : Option String) : List String :=
  [message, "Query: " ++ query_name]
    ++ (if strTruthy cypher then ["Cypher:\n    " ++ formatCypher (cypher.getD "")] else [])
    ++ (if paramsTruthy params then
          ["Params: " ++ renderParams (errorSafeParams (params.getD []))] else [])
    ++ (if strTruthy guidance then ["Guidance:\n" ++ guidance.getD ""] else [])

/-- The serialized exception text: `"\n".join(details)`. -/
def buildErrorMessage (message query_name : String) (cypher : Option String)
    (params : Option Params) (guidance : Option String) : String :=
  joinNL (errorDetails message query_name cypher params guidance)

/-- `str(e)` for a `Neo4jQueryError`. -/
def Neo4jQueryError.str (e : Neo4jQueryError) : String :=
  buildErrorMessage e.message e.query_name e.cypher e.params e.guidance

/-! ## `Neo4jService._get_syntax_guidance` -/

/-- First canned guidance block (deprecated existence-check idiom); the
Python text uses single quotes around the code fragments, rendered here
without them. -/
def gExists : String :=
  "SYNTAX UPDATE REQUIRED: Replace exists(n.property) with n.property IS NOT NULL\nExample: WHERE exists(n.name) -> WHERE n.name IS NOT NULL"

/-- Case-sensitivity guidance block. -/
def gCase : String :=
  "Check case sensitivity in string operations (STARTS WITH, ENDS WITH, CONTAINS).\nThese are case-sensitive by default. Use toLower() for case-insensitive matching."

/-- Relationship-direction guidance block. -/
def gDirection : String :=
  "Check relationship direction. If not specific, use (n)-[r]-(m) for undirected matching."

/-- Neo4j 5.x compatibility guidance block. -/
def gCompat : String :=
  "Neo4j 5.x compatibility issue: Ensure your Cypher syntax is compatible with Neo4j 5+."

/-- Generic fallback guidance block. -/
def gGeneric : String :=
  "General tips:\n- Check property names and case sensitivity\n- Verify all parentheses are balanced\n- Use parametrized queries instead of string concatenation\n- Refer to Neo4j 5.x Cypher documentation for latest syntax"

/-- `_get_syntax_guidance`: deterministic substring matches on the error
text, each appending one canned block; generic fallback when none match. -/
def getSynGuidance (error_msg : String) : String :=
  let guidance : List String := []
  let guidance := if strContains error_msg "exists(variable.property)"
    then guidance ++ [gExists] else guidance
  let guidance := if strContains error_msg "STARTS WITH"
      || strContains error_msg "ENDS WITH" || strContains error_msg "CONTAINS"
    then guidance ++ [gCase] else guidance
  let guidance := if strContains error_msg "MATCH (n)-[r]->"
    then guidance ++ [gDirection] else guidance
  let guidance := if strContains error_msg "Error 42I52"
    then guidance ++ [gCompat] else guidance
  let guidance := if guidance.isEmpty then [gGeneric] else guidance
  joinNL guidance

/-! ## `Neo4jService.run_query`: retry loop and error classification

The engine is an oracle assigning to every execution attempt (0-based
index) its outcome; `run_query` produces a trace: the number of
executions, the list of `time.sleep` durations in call order, and either
the returned rows or the raised `Neo4jQueryError`. -/

/-- One result record (Python `r.data()`, an ordered column map). -/
abbrev Row := List (String × String)

/-- Outcome of one `session.run` attempt, one constructor per `except`
clause of `run_query` (`SessionExpired`/`TransientError`/`ServiceUnavailable`
are collapsed into `transient`; `synErr` stands for `CypherSyntaxError`;
`authErr` for `AuthError`; `otherErr` for the bare `Exception` clause). -/
inductive Outcome where
  | ok (rows : List Row)
  | transient (e : String)
  | synErr (e : String)
  | authErr (e : String)
  | otherErr (e : String)
deriving DecidableEq, Repr

/-- Trace of one `run_query` invocation. -/
structure ExecTrace where
  attempts : Nat
  sleeps : List ℚ
  result : Except Neo4jQueryError (List Row)
deriving Repr

/-- The `while True` loop of `run_query`. `attempt` of the Python code is
the 0-based execution index `i` plus the transient failures counted so
far; the code increments it before the `attempt > max_retries` check, so
the check on execution `i` reads `i + 1 > max_retries`. The first argument
is recursion fuel; called with `max_retries + 1` fuel it never runs out,
because the loop re-enters only while `i + 1 ≤ max_retries`. -/
def runLoop (engine : Nat → Outcome) (cypher query_name : String)
    (params : Option Params) (write : Bool) (max_retries : Nat)
    (retry_backoff : ℚ) : Nat → Nat → ExecTrace
  | 0, _ =>
    -- out of fuel: unreachable from `run_query` (see the invariant above)
    ⟨0, [], .error ⟨"model: retry fuel exhausted", query_name, none, none, none⟩⟩
  | fuel + 1, i =>
    match engine i with
    | .ok rows => ⟨1, [], .ok rows⟩
    | .transient e =>
      if write then
        ⟨1, [], .error ⟨"Write operation failed: " ++ e, query_name,
                        some cypher, params, none⟩⟩
      else if max_retries < i + 1 then
        ⟨1, [], .error ⟨"Max retries exceeded: " ++ e, query_name,
                        some cypher, params, none⟩⟩
      else
        let rest := runLoop engine cypher query_name params write max_retries
          retry_backoff fuel (i + 1)
        ⟨rest.attempts + 1, retry_backoff * 2 ^ i :: rest.sleeps, rest.result⟩
    | .synErr e =>
      ⟨1, [], .error ⟨"Syntax error: " ++ e, query_name, some cypher, params,
                      some (getSynGuidance e)⟩⟩
    | .authErr _ =>
      ⟨1, [], .error ⟨"Authentication failed", query_name, some cypher,
                      none, none⟩⟩
    | .otherErr e =>
      ⟨1, [], .error ⟨"Unexpected error: " ++ e, query_name, some cypher,
                      params, none⟩⟩

/-- `Neo4jService.run_query`. -/
def run_query (engine : Nat → Outcome) (cypher : String) (params : Option Params)
    (query_name : String) (write : Bool) (max_retries : Nat)
    (retry_backoff : ℚ) : ExecTrace :=
  runLoop engine cypher query_name params write max_retries retry_backoff
    (max_retries + 1) 0

/-! ## Driver lifecycle (`Neo4jService.get_driver` / `Neo4jService.close`)

The Connection Handle is modelled as a numeric id drawn from a counter,
so that construction of a new driver by `GraphDatabase.driver(...)` is
observable in the state. -/

/-- The module-level configuration read from the environment
(`NEO4J_URI`, `NEO4J_USERNAME`, `NEO4J_PASSWORD`, `NEO4J_DATABASE`;
`os.getenv` defaults make every field a plain string, possibly empty). -/
structure Neo4jConfig where
  uri : String
  username : String
  pw : String
  database : String
deriving DecidableEq, Repr

/-- Mutable service state: the lazily initialized driver (`_driver`) and a
counter of constructed drivers. -/
structure ServiceState where
  driver : Option Nat
  nextId : Nat
deriving DecidableEq, Repr

/-- `get_driver`: return the cached driver; otherwise fail when
`not (NEO4J_URI and NEO4J_USERNAME)` (Python truthiness: empty string is
falsy), else construct a fresh driver. The double-checked lock is
serialized away (single-caller semantics). -/
def get_driver (cfg : Neo4jConfig) (s : ServiceState) : Except String Nat × ServiceState :=
  match s.driver with
  | some d => (.ok d, s)
  | none =>
    if cfg.uri == "" || cfg.username == "" then
      (.error "Neo4j configuration incomplete: set NEO4J_URI/NEO4J_USERNAME", s)
    else
      (.ok s.nextId, ⟨some s.nextId, s.nextId + 1⟩)

deriving instance DecidableEq for Except

/-- `close`: close and clear the driver when present. -/
def closeService (s : ServiceState) : ServiceState :=
  match s.driver with
  | some _ => ⟨none, s.nextId⟩
  | none => s

/-! ## Query logger configuration (`configure_query_logging`) -/

/-- `DEFAULT_CONFIG` of `query_logger.py` as a record. -/
structure LogConfig where
  slow_query_threshold_ms : ℚ
  log_all_queries : Bool
  log_to_file : Bool
  log_file : String
  include_params : Bool
  include_results : Bool
  redact_fields : List String
deriving DecidableEq, Repr

/-- The default configuration values. -/
def DEFAULT_CONFIG : LogConfig :=
  ⟨100, false, true, "neo4j_slow_queries.log", true, false, DEFAULT_REDACT_FIELDS⟩

/-- Caller-supplied overrides: each key optionally overrides one default
(`{**DEFAULT_CONFIG, **(config or {})}`). -/
structure ConfigOverrides where
  slow_query_threshold_ms : Option ℚ
  log_all_queries : Option Bool
  log_to_file : Option Bool
  log_file : Option String
  include_params : Option Bool
  include_results : Option Bool
  redact_fields : Option (List String)
deriving DecidableEq, Repr

/-- The empty override dict (`configure_query_logging(None)`). -/
def noOverrides : ConfigOverrides := ⟨none, none, none, none, none, none, none⟩

/-- `effective_config = {**DEFAULT_CONFIG, **(config or {})}`. -/
def mergeConfig (o : ConfigOverrides) : LogConfig :=
  ⟨o.slow_query_threshold_ms.getD DEFAULT_CONFIG.slow_query_threshold_ms,
   o.log_all_queries.getD DEFAULT_CONFIG.log_all_queries,
   o.log_to_file.getD DEFAULT_CONFIG.log_to_file,
   o.log_file.getD DEFAULT_CONFIG.log_file,
   o.include_params.getD DEFAULT_CONFIG.include_params,
   o.include_results.getD DEFAULT_CONFIG.include_results,
   o.redact_fields.getD DEFAULT_CONFIG.redact_fields⟩

/-- Observable state of the process-wide `query_logger`: how many file
handlers are attached (each attached handler writes every emitted record
once to the sink) and the stored `query_logger.config`. -/
structure LoggerState where
  handlersCount : Nat
  cfg : Option LogConfig
deriving DecidableEq, Repr

/-- Logger state before any configuration call. -/
def initLoggerState : LoggerState := ⟨0, none⟩

/-- `configure_query_logging`: merge overrides onto the defaults, attach a
new `FileHandler` when `log_to_file` is enabled (`addHandler` never
deduplicates), and store the effective config. Path resolution and
directory-creation fallback only pick the file name and are immaterial to
the handler count. -/
def configure_query_logging (o : ConfigOverrides) (s : LoggerState) : LoggerState :=
  let eff := mergeConfig o
  ⟨if eff.log_to_file then s.handlersCount + 1 else s.handlersCount, some eff⟩

/-- Number of times one emitted record is written to the log sink: once
per attached file handler. -/
def sinkWritesPerRecord (s : LoggerState) : Nat := s.handlersCount

/-! ## The `log_query` wrapper: timing, context and emission -/

/-- `f"{x:.2f}"` for a nonnegative rational: round to two decimals.
`n = floor(q * 100 + 1/2) = (200 * num + den) / (2 * den)` is computed on
the numerator and denominator directly so the kernel can evaluate it.
(Python rounds half to even, which differs only at exact
half-hundredths.) -/
def fmt2 (q : ℚ) : String :=
  let n : Int := (200 * q.num + (q.den : Int)) / (2 * (q.den : Int))
  let whole := n / 100
  let frac := (n % 100).natAbs
  toString whole ++ "." ++ (if frac < 10 then "0" else "") ++ toString frac

/-- Request-correlation fields copied from the thread-local middleware
context when present. -/
structure ReqInfo where
  request_path : Option String
  request_method : Option String
  request_id : Option String
  user_id : Option String
deriving DecidableEq, Repr

/-- The `context` dict built by the wrapper; failure-only fields are
`none` on success and vice versa. -/
structure LogContext where
  query_name : String
  write_operation : Bool
  params : Option Params
  request : Option ReqInfo
  elapsed_ms : ℚ
  success : Bool
  result_count : Option Nat
  error : Option String
  error_type : Option String
deriving DecidableEq, Repr

/-- Python log levels used by the wrapper. -/
inductive LogLevel where
  | info
  | warning
  | error
deriving DecidableEq, Repr

/-- `%(levelname)s`. -/
def levelName : LogLevel → String
  | .info => "INFO"
  | .warning => "WARNING"
  | .error => "ERROR"

/-- One record handed to `query_logger.log(...)`: the level, the free-text
message, and the `extra={"context": ...}` attribute (`none` for the
full-query line, which passes no `extra`). -/
structure Emitted where
  level : LogLevel
  message : String
  context : Option LogContext
deriving DecidableEq, Repr

/-- Outcome of the wrapped call as observed by the wrapper: measured
elapsed milliseconds plus either the result row count or the raised
exception text and class name. -/
inductive CallOutcome where
  | succ (elapsed_ms : ℚ) (rowCount : Nat)
  | fail (elapsed_ms : ℚ) (errText errType : String)
deriving DecidableEq, Repr

/-- `cypher.split('\n')[0][:80] + ('...' if len(cypher) > 80 else '')`. -/
def shortQueryOf (cypher : String) : String :=
  String.mk (((splitLines cypher).headD "").data.take 80)
    ++ (if 80 < cypher.data.length then "..." else "")

/-- The body of the `log_query` wrapper: the records emitted for one
invocation (in emission order). Success: one structured line when
`elapsed_ms > slow_query_threshold_ms` (strict, from
`is_slow = elapsed_ms > config[...]`) or `log_all_queries`, plus the
full-query line when `elapsed_ms > threshold * 5`. Failure: always one
error line. -/
def logQueryEmissions (config : LogConfig) (cypher : String) (params : Option Params)
    (query_name : String) (write : Bool) (req : Option ReqInfo)
    (outcome : CallOutcome) : List Emitted :=
  let redacted_params : Option Params :=
    if config.include_params && paramsTruthy params then
      some (loggerRedactParams config.redact_fields (params.getD []))
    else none
  match outcome with
  | .succ elapsed_ms rowCount =>
    let context : LogContext :=
      ⟨query_name, write, redacted_params, req, elapsed_ms, true,
       if config.include_results && !(rowCount == 0) then some rowCount else none,
       none, none⟩
    let is_slow := decide (config.slow_query_threshold_ms < elapsed_ms)
    if is_slow || config.log_all_queries then
      let log_level := if is_slow then LogLevel.warning else LogLevel.info
      let log_message := "Neo4j Query: " ++ query_name ++ " "
        ++ (if is_slow then "(SLOW)" else "") ++ " - " ++ fmt2 elapsed_ms
        ++ "ms - " ++ shortQueryOf cypher
      Emitted.mk log_level log_message (some context)
        :: (if config.slow_query_threshold_ms * 5 < elapsed_ms then
              [Emitted.mk LogLevel.warning ("Full slow query:\n" ++ cypher) none]
            else [])
    else []
  | .fail elapsed_ms errText errType =>
    let context : LogContext :=
      ⟨query_name, write, redacted_params, req, elapsed_ms, false, none,
       some errText, some errType⟩
    [Emitted.mk LogLevel.error
      ("Neo4j Query Error: " ++ query_name ++ " - " ++ fmt2 elapsed_ms
        ++ "ms - " ++ errText) (some context)]

/-- The line the `FileHandler` appends for one record, per the formatter
`%(asctime)s [%(levelname)s] %(message)s`. Only these three fields are
rendered; attributes passed through `extra` (such as `context`) are not
part of the format string and do not reach the file. -/
def emittedFileLine (asctime : String) (e : Emitted) : String :=
  asctime ++ " [" ++ levelName e.level ++ "] " ++ e.message

/-- The guard of the per-line parsing step of `get_slow_query_stats`:
`if '"context":' in line:` — a line without that token is skipped. -/
def analyzerAcceptsLine (line : String) : Bool :=
  strContains line "\x22context\x22:"

/-! ## Slow-query analyzer aggregation (`get_slow_query_stats`)

The per-line JSON extraction is modelled by `analyzerAcceptsLine` above;
the aggregation below consumes the successfully parsed context records in
file order. -/

/-- A parsed context record: the context dict's string-valued fields plus
`elapsed_ms` (`context.get("elapsed_ms", 0)`). -/
structure Ctx where
  fields : List (String × String)
  elapsed_ms : ℚ
deriving DecidableEq, Repr

/-- `context.get(group_by, "unknown")`. -/
def groupKeyOf (group_by : String) (ctx : Ctx) : String :=
  (ctx.fields.lookup group_by).getD "unknown"

/-- Per-group running statistics; `min_time_ms = none` models the
`float('inf')` initializer. -/
structure GroupStats where
  count : Nat
  total_time_ms : ℚ
  avg_time_ms : ℚ
  max_time_ms : ℚ
  min_time_ms : Option ℚ
  examples : List Ctx
deriving DecidableEq, Repr

/-- The fresh group inserted when a key is first seen. -/
def emptyGroup : GroupStats := ⟨0, 0, 0, 0, none, []⟩

/-- Descending order of example records by elapsed time
(`sort(key=..., reverse=True)` on examples). -/
def exElapsedGE (a b : Ctx) : Prop := b.elapsed_ms ≤ a.elapsed_ms

instance : DecidableRel exElapsedGE :=
  fun a b => inferInstanceAs (Decidable (b.elapsed_ms ≤ a.elapsed_ms))

/-- Keep up to 3 examples biased toward the slowest: append under
capacity; at capacity replace the last slot when strictly slower, then
re-sort descending. -/
def updateExamples (exs : List Ctx) (ctx : Ctx) : List Ctx :=
  if exs.length < 3 then exs ++ [ctx]
  else
    match exs.getLast? with
    | some last =>
      if last.elapsed_ms < ctx.elapsed_ms then
        List.insertionSort exElapsedGE (exs.dropLast ++ [ctx])
      else exs
    | none => exs

/-- One stats update for a context that passed the threshold filter. -/
def updateGroup (g : GroupStats) (ctx : Ctx) : GroupStats :=
  let count := g.count + 1
  let total := g.total_time_ms + ctx.elapsed_ms
  ⟨count, total, total / (count : ℚ),
   max g.max_time_ms ctx.elapsed_ms,
   some (match g.min_time_ms with
         | none => ctx.elapsed_ms
         | some m => min m ctx.elapsed_ms),
   updateExamples g.examples ctx⟩

/-- Update the insertion-ordered stats dict at `key` (Python dict update
preserves first-insertion position). -/
def upsertStats (stats : List (String × GroupStats)) (key : String) (ctx : Ctx) :
    List (String × GroupStats) :=
  match stats with
  | [] => [(key, updateGroup emptyGroup ctx)]
  | (k, g) :: rest =>
    if k == key then (k, updateGroup g ctx) :: rest
    else (k, g) :: upsertStats rest key ctx

/-- The scan over parsed contexts: skip entries below `min_time_ms`, group
the rest. -/
def scanContexts (min_time_ms : ℚ) (group_by : String) (ctxs : List Ctx) :
    List (String × GroupStats) :=
  ctxs.foldl
    (fun acc ctx =>
      if ctx.elapsed_ms < min_time_ms then acc
      else upsertStats acc (groupKeyOf group_by ctx) ctx)
    []

/-- Descending order of groups by average time
(`result.sort(key=lambda x: x["avg_time_ms"], reverse=True)`). -/
def avgGE (a b : String × GroupStats) : Prop :=
  b.2.avg_time_ms ≤ a.2.avg_time_ms

instance : DecidableRel avgGE :=
  fun a b => inferInstanceAs (Decidable (b.2.avg_time_ms ≤ a.2.avg_time_ms))

instance : IsTotal (String × GroupStats) avgGE :=
  ⟨fun a b => (le_total b.2.avg_time_ms a.2.avg_time_ms).imp id id⟩

instance : IsTrans (String × GroupStats) avgGE :=
  ⟨fun _ _ _ hab hbc => le_trans hbc hab⟩

/-- `get_slow_query_stats` over the parsed contexts: aggregate, sort by
average descending (Python `list.sort` is stable, modelled by the stable
`insertionSort`), return the first `top_n`. -/
def get_slow_query_stats (ctxs : List Ctx) (min_time_ms : ℚ) (group_by : String)
    (top_n : Nat) : List (String × GroupStats) :=
  (List.insertionSort avgGE (scanContexts min_time_ms group_by ctxs)).take top_n

/-- The ordering the claim asserts for the analyzer output: strictly
greater average first, ties broken by ascending group key. (Stated from
the spec sentence, for comparison with the code's order.) -/
def specClaimOrder (a b : String × GroupStats) : Prop :=
  b.2.avg_time_ms < a.2.avg_time_ms
    ∨ (a.2.avg_time_ms = b.2.avg_time_ms ∧ a.1 ≤ b.1)

instance : DecidableRel specClaimOrder := fun a b =>
  inferInstanceAs (Decidable (b.2.avg_time_ms < a.2.avg_time_ms
    ∨ (a.2.avg_time_ms = b.2.avg_time_ms ∧ a.1 ≤ b.1)))

/-! ## Basic lemmas about substring containment -/

theorem startsWithSeq_refl (l : List Char) : startsWithSeq l l = true := by
  induction l with
  | nil => rfl
  | cons c cs ih => simp [startsWithSeq, ih]

theorem containsSeq_refl (l : List Char) : containsSeq l l = true := by
  cases l with
  | nil => rfl
  | cons c cs => simp [containsSeq, startsWithSeq_refl]

theorem strContains_refl (s : String) : strContains s s = true :=
  containsSeq_refl s.data

theorem startsWithSeq_append (p l r : List Char) (h : startsWithSeq p l = true) :
    startsWithSeq p (l ++ r) = true := by
  induction p generalizing l with
  | nil => rfl
  | cons x xs ih =>
    cases l with
    | nil => simp [startsWithSeq] at h
    | cons c cs =>
      simp only [startsWithSeq, Bool.and_eq_true] at h
      simpa [startsWithSeq, h.1] using ih cs h.2

theorem containsSeq_append_left (p l r : List Char) (h : containsSeq p l = true) :
    containsSeq p (l ++ r) = true := by
  induction l with
  | nil =>
    cases p with
    | nil => cases r <;> simp [containsSeq, startsWithSeq]
    | cons x xs => simp [containsSeq, startsWithSeq] at h
  | cons c cs ih =>
    simp only [containsSeq, Bool.or_eq_true] at h
    rcases h with h | h
    · simp only [List.cons_append, containsSeq, Bool.or_eq_true]
      exact Or.inl (startsWithSeq_append _ _ _ h)
    · simp only [List.cons_append, containsSeq, Bool.or_eq_true]
      exact Or.inr (ih h)

theorem containsSeq_append_right (p l r : List Char) (h : containsSeq p r = true) :
    containsSeq p (l ++ r) = true := by
  induction l with
  | nil => simpa using h
  | cons c cs ih =>
    simp only [List.cons_append, containsSeq, Bool.or_eq_true]
    exact Or.inr ih

theorem string_data_append (a b : String) : (a ++ b).data = a.data ++ b.data := rfl

theorem strContains_append_left (a b pat : String) (h : strContains a pat = true) :
    strContains (a ++ b) pat = true := by
  unfold strContains at *
  rw [string_data_append]
  exact containsSeq_append_left _ _ _ h

theorem strContains_append_right (a b pat : String) (h : strContains b pat = true) :
    strContains (a ++ b) pat = true := by
  unfold strContains at *
  rw [string_data_append]
  exact containsSeq_append_right _ _ _ h

theorem strContains_joinNL (l : List String) (x : String) (h : x ∈ l) :
    strContains (joinNL l) x = true := by
  induction l with
  | nil => cases h
  | cons y ys ih =>
    cases ys with
    | nil =>
      have hx : x = y := by simpa using h
      subst hx
      simpa [joinNL] using strContains_refl x
    | cons z zs =>
      rcases List.mem_cons.mp h with hxy | hmem
      · subst hxy
        show strContains (x ++ "\n" ++ joinNL (z :: zs)) x = true
        exact strContains_append_left _ _ _ (strContains_append_left _ _ _ (strContains_refl x))
      · show strContains (y ++ "\n" ++ joinNL (z :: zs)) x = true
        exact strContains_append_right _ _ _ (ih hmem)

/-! ## Helper lemmas about the retry loop -/

theorem runLoop_retry (engine : Nat → Outcome) (cypher qn : String)
    (params : Option Params) (mr : Nat) (b : ℚ) (fuel i : Nat) (e : String)
    (heng : engine i = .transient e) (hlt : ¬ (mr < i + 1)) :
    runLoop engine cypher qn params false mr b (fuel + 1) i =
      ⟨(runLoop engine cypher qn params false mr b fuel (i + 1)).attempts + 1,
       b * 2 ^ i :: (runLoop engine cypher qn params false mr b fuel (i + 1)).sleeps,
       (runLoop engine cypher qn params false mr b fuel (i + 1)).result⟩ := by
  simp [runLoop, heng, hlt]

theorem runLoop_exhaust (engine : Nat → Outcome) (cypher qn : String)
    (params : Option Params) (mr : Nat) (b : ℚ) (fuel i : Nat) (e : String)
    (heng : engine i = .transient e) (hge : mr < i + 1) :
    runLoop engine cypher qn params false mr b (fuel + 1) i =
      ⟨1, [], .error ⟨"Max retries exceeded: " ++ e, qn, some cypher, params, none⟩⟩ := by
  simp [runLoop, heng, hge]

theorem runLoop_allTransient (engine : Nat → Outcome) (es : Nat → String)
    (cypher qn : String) (params : Option Params) (mr : Nat) (b : ℚ)
    (h : ∀ i, engine i = .transient (es i)) :
    ∀ n i, i + n = mr →
      runLoop engine cypher qn params false mr b (n + 1) i =
        ⟨n + 1, (List.range' i n).map (fun k => b * 2 ^ k),
         .error ⟨"Max retries exceeded: " ++ es mr, qn, some cypher, params, none⟩⟩ := by
  intro n
  induction n with
  | zero =>
    intro i hi
    have him : i = mr := by omega
    rw [runLoop_exhaust engine cypher qn params mr b 0 i (es i) (h i) (by omega), him]
    simp
  | succ n ih =>
    intro i hi
    have hlt : ¬ (mr < i + 1) := by omega
    rw [runLoop_retry engine cypher qn params mr b (n + 1) i (es i) (h i) hlt,
        ih (i + 1) (by omega), List.range'_succ]
    simp

/-! ## Claim C2: read retries with exponential backoff until exhaustion -/

/-- C2: a read invocation (`write = false`) with `max_retries = n` and
backoff base `b > 0` whose every execution attempt raises a transient
error performs exactly `n + 1` executions, sleeps exactly `n` times with
the k-th sleep equal to `b * 2 ^ k`, and raises the Diagnostic Error with
the distinct "Max retries exceeded" classification. -/
theorem C2_read_retry_exhaustion (engine : Nat → Outcome) (es : Nat → String)
    (cypher : String) (params : Option Params) (qn : String) (mr : Nat) (b : ℚ)
    (_hb : 0 < b) (h : ∀ i, engine i = .transient (es i)) :
    run_query engine cypher params qn false mr b =
      ⟨mr + 1, (List.range mr).map (fun k => b * 2 ^ k),
       .error ⟨"Max retries exceeded: " ++ es mr, qn, some cypher, params, none⟩⟩ := by
  have := runLoop_allTransient engine es cypher qn params mr b h mr 0 (by omega)
  simpa [run_query, List.range_eq_range'] using this

/-- Witness for C2 at a concrete input: three executions, two sleeps of
`1/4` and `1/2` milliseconds-equivalent, exhaustion error. -/
theorem C2_read_retry_exhaustion_witness :
    run_query (fun _ => Outcome.transient "boom") "RETURN 1" none "q" false 2 (1/4) =
      ⟨2 + 1, (List.range 2).map (fun k => (1/4 : ℚ) * 2 ^ k),
       .error ⟨"Max retries exceeded: boom", "q", some "RETURN 1", none, none⟩⟩ :=
  C2_read_retry_exhaustion (fun _ => Outcome.transient "boom") (fun _ => "boom")
    "RETURN 1" none "q" 2 (1/4) (by norm_num) (fun _ => rfl)

/-! ## Claim C3: writes are never retried -/

/-- C3: a write invocation (`write = true`) whose first execution raises a
transient error performs exactly one execution, never sleeps, and raises
the Diagnostic Error with the "Write operation failed" classification,
regardless of `max_retries`. -/
theorem C3_write_fail_fast (engine : Nat → Outcome) (e cypher : String)
    (params : Option Params) (qn : String) (mr : Nat) (b : ℚ)
    (h : engine 0 = .transient e) :
    run_query engine cypher params qn true mr b =
      ⟨1, [], .error ⟨"Write operation failed: " ++ e, qn, some cypher, params, none⟩⟩ := by
  simp [run_query, runLoop, h]

/-- Witness for C3 at a concrete input with a large retry budget. -/
theorem C3_write_fail_fast_witness :
    run_query (fun _ => Outcome.transient "gone") "CREATE (n)" none "w" true 7 (1/4) =
      ⟨1, [], .error ⟨"Write operation failed: gone", "w", some "CREATE (n)", none, none⟩⟩ :=
  C3_write_fail_fast (fun _ => Outcome.transient "gone") "gone" "CREATE (n)"
    none "w" 7 (1/4) rfl

/-! ## Claim C10: authentication errors carry no parameters -/

/-- C10: when the engine raises an authentication error, the raised
Diagnostic Error has `params = none` and is entirely independent of the
parameter mapping supplied to `run_query`; by contrast the unexpected- and
syntax-class Diagnostic Errors carry the supplied parameters in their
`params` attribute (their serialized messages then embed the
exact-match-redacted rendering, per `errorDetails`). -/
theorem C10_auth_error_paramless (engine engine2 engine3 : Nat → Outcome)
    (e e2 e3 cypher : String) (params params2 : Option Params) (qn : String)
    (write : Bool) (mr : Nat) (b : ℚ)
    (h : engine 0 = .authErr e) (h2 : engine2 0 = .otherErr e2)
    (h3 : engine3 0 = .synErr e3) :
    (run_query engine cypher params qn write mr b).result =
      .error ⟨"Authentication failed", qn, some cypher, none, none⟩
  ∧ (run_query engine cypher params qn write mr b).result =
      (run_query engine cypher params2 qn write mr b).result
  ∧ (run_query engine2 cypher params qn write mr b).result =
      .error ⟨"Unexpected error: " ++ e2, qn, some cypher, params, none⟩
  ∧ (run_query engine3 cypher params qn write mr b).result =
      .error ⟨"Syntax error: " ++ e3, qn, some cypher, params,
              some (getSynGuidance e3)⟩ := by
  refine ⟨?_, ?_, ?_, ?_⟩ <;> simp [run_query, runLoop, h, h2, h3]

/-- Witness for C10 at concrete engines and two different parameter
mappings. -/
theorem C10_auth_error_paramless_witness :
    (run_query (fun _ => Outcome.authErr "bad credentials") "RETURN 1"
        (some [("password", "hunter2")]) "q" false 3 (1/4)).result =
      .error ⟨"Authentication failed", "q", some "RETURN 1", none, none⟩
  ∧ (run_query (fun _ => Outcome.authErr "bad credentials") "RETURN 1"
        (some [("password", "hunter2")]) "q" false 3 (1/4)).result =
      (run_query (fun _ => Outcome.authErr "bad credentials") "RETURN 1"
        none "q" false 3 (1/4)).result
  ∧ (run_query (fun _ => Outcome.otherErr "surprise") "RETURN 1"
        (some [("password", "hunter2")]) "q" false 3 (1/4)).result =
      .error ⟨"Unexpected error: surprise", "q", some "RETURN 1",
              some [("password", "hunter2")], none⟩
  ∧ (run_query (fun _ => Outcome.synErr "bad query") "RETURN 1"
        (some [("password", "hunter2")]) "q" false 3 (1/4)).result =
      .error ⟨"Syntax error: bad query", "q", some "RETURN 1",
              some [("password", "hunter2")], some (getSynGuidance "bad query")⟩ :=
  C10_auth_error_paramless (fun _ => Outcome.authErr "bad credentials")
    (fun _ => Outcome.otherErr "surprise") (fun _ => Outcome.synErr "bad query")
    "bad credentials" "surprise" "bad query" "RETURN 1"
    (some [("password", "hunter2")]) none "q" false 3 (1/4) rfl rfl rfl

/-! ## Claim C1: parameter redaction -/

/-- A key that equals a denylist entry case-insensitively also matches the
logger denylist by substring (every entry is lowercase and contains
itself). -/
theorem denylist_of_errorKey (k : String)
    (h : ERROR_REDACT_KEYS.contains (strLower k) = true) :
    keyMatchesDenylist DEFAULT_REDACT_FIELDS k = true := by
  have hmem : strLower k ∈ ERROR_REDACT_KEYS := by
    simpa using h
  unfold keyMatchesDenylist
  rw [List.any_eq_true]
  refine ⟨strLower k, ?_, ?_⟩
  · simp only [ERROR_REDACT_KEYS, List.mem_cons, List.not_mem_nil, or_false] at hmem
    rcases hmem with h' | h' | h' | h' <;> simp [DEFAULT_REDACT_FIELDS, h']
  · simp only [ERROR_REDACT_KEYS, List.mem_cons, List.not_mem_nil, or_false] at hmem
    rcases hmem with h' | h' | h' | h' <;> (rw [h']; decide)

/-- C1 fails as stated: the key `api_key` matches the denylist by
case-insensitive substring, yet its value `hunter2` appears in clear text
in the serialized Diagnostic Error (whose redaction is exact
case-insensitive key equality), and the failure log line — which embeds
`str(e)` — echoes the same clear-text value. -/
theorem C1_counterexample :
    keyMatchesDenylist DEFAULT_REDACT_FIELDS "api_key" = true
  ∧ strContains (buildErrorMessage "Max retries exceeded: boom" "q" (some "RETURN 1")
      (some [("api_key", "hunter2")]) none) "hunter2" = true
  ∧ (logQueryEmissions DEFAULT_CONFIG "RETURN 1" (some [("api_key", "hunter2")]) "q"
      false none (.fail 1 (buildErrorMessage "Max retries exceeded: boom" "q"
        (some "RETURN 1") (some [("api_key", "hunter2")]) none) "Neo4jQueryError")).any
      (fun r => strContains r.message "hunter2") = true := by decide

/-- C1 amended: the Logger's context redacts exactly the keys matching the
denylist by case-insensitive substring; the Diagnostic Error's `Params:`
section (embedded in its serialized message) redacts only keys equal
case-insensitively to a denylist entry; keys matching neither appear
unredacted in both. -/
theorem C1_redaction_amended (ps : Params) (k v m qn : String)
    (cy g : Option String) (hmem : (k, v) ∈ ps) :
    (keyMatchesDenylist DEFAULT_REDACT_FIELDS k = true →
      (k, "[REDACTED]") ∈ loggerRedactParams DEFAULT_REDACT_FIELDS ps)
  ∧ (ERROR_REDACT_KEYS.contains (strLower k) = true →
      (k, "[REDACTED]") ∈ errorSafeParams ps)
  ∧ (keyMatchesDenylist DEFAULT_REDACT_FIELDS k = false →
      (k, v) ∈ loggerRedactParams DEFAULT_REDACT_FIELDS ps
      ∧ (k, v) ∈ errorSafeParams ps)
  ∧ (ps ≠ [] →
      strContains (buildErrorMessage m qn cy (some ps) g)
        ("Params: " ++ renderParams (errorSafeParams ps)) = true) := by
  refine ⟨?_, ?_, ?_, ?_⟩
  · intro h
    have hm : (k, if keyMatchesDenylist DEFAULT_REDACT_FIELDS k then "[REDACTED]" else v)
        ∈ loggerRedactParams DEFAULT_REDACT_FIELDS ps :=
      List.mem_map_of_mem _ hmem
    simpa [h] using hm
  · intro h
    have hm : (k, if ERROR_REDACT_KEYS.contains (strLower k) then "[REDACTED]" else v)
        ∈ errorSafeParams ps :=
      List.mem_map_of_mem _ hmem
    rw [h] at hm
    simpa using hm
  · intro h
    have h2 : ERROR_REDACT_KEYS.contains (strLower k) = false := by
      cases hcon : ERROR_REDACT_KEYS.contains (strLower k) with
      | false => rfl
      | true => rw [denylist_of_errorKey k hcon] at h; cases h
    constructor
    · have hm : (k, if keyMatchesDenylist DEFAULT_REDACT_FIELDS k then "[REDACTED]" else v)
          ∈ loggerRedactParams DEFAULT_REDACT_FIELDS ps :=
        List.mem_map_of_mem _ hmem
      simpa [h] using hm
    · have hm : (k, if ERROR_REDACT_KEYS.contains (strLower k) then "[REDACTED]" else v)
          ∈ errorSafeParams ps :=
        List.mem_map_of_mem _ hmem
      rw [h2] at hm
      simpa using hm
  · intro hne
    unfold buildErrorMessage
    apply strContains_joinNL
    simp [errorDetails, paramsTruthy, hne]

/-- Witness for the amended C1 at a concrete parameter list holding the
exact-match key `token`. -/
theorem C1_redaction_amended_witness :
    (keyMatchesDenylist DEFAULT_REDACT_FIELDS "token" = true →
      ("token", "[REDACTED]") ∈
        loggerRedactParams DEFAULT_REDACT_FIELDS [("token", "t0k"), ("name", "bob")])
  ∧ (ERROR_REDACT_KEYS.contains (strLower "token") = true →
      ("token", "[REDACTED]") ∈ errorSafeParams [("token", "t0k"), ("name", "bob")])
  ∧ (keyMatchesDenylist DEFAULT_REDACT_FIELDS "token" = false →
      ("token", "t0k") ∈
        loggerRedactParams DEFAULT_REDACT_FIELDS [("token", "t0k"), ("name", "bob")]
      ∧ ("token", "t0k") ∈ errorSafeParams [("token", "t0k"), ("name", "bob")])
  ∧ ([("token", "t0k"), ("name", "bob")] ≠ ([] : Params) →
      strContains (buildErrorMessage "Syntax error: boom" "q" (some "RETURN 1")
          (some [("token", "t0k"), ("name", "bob")]) none)
        ("Params: " ++
          renderParams (errorSafeParams [("token", "t0k"), ("name", "bob")])) = true) :=
  C1_redaction_amended [("token", "t0k"), ("name", "bob")] "token" "t0k"
    "Syntax error: boom" "q" (some "RETURN 1") none (by decide)

/-! ## Claim C4: logger-to-analyzer round trip -/

/-- C4 fails on the code: for a successful slow invocation the Logger does
emit a record carrying the context (as the `extra` attribute of the
`LogRecord`), but the file formatter renders only timestamp, level and
message, so the appended line never contains the token `"context":` that
the Analyzer's per-line parser requires, and the parser skips every line
the Logger writes. -/
theorem C4_roundtrip_failure :
    logQueryEmissions DEFAULT_CONFIG "RETURN 1 AS ok" none "health" false none
        (.succ 150 1) ≠ []
  ∧ ((logQueryEmissions DEFAULT_CONFIG "RETURN 1 AS ok" none "health" false none
        (.succ 150 1)).map (emittedFileLine "2025-01-01 00:00:00,000")).all
      (fun line => !(analyzerAcceptsLine line)) = true
  ∧ (logQueryEmissions DEFAULT_CONFIG "RETURN 1 AS ok" none "health" false none
        (.succ 150 1)).any (fun r => r.context.isSome) = true := by
  have h5 : ¬ ((100 : ℚ) * 5 < 150) := by norm_num
  refine ⟨?_, ?_, ?_⟩ <;>
    · simp only [logQueryEmissions, DEFAULT_CONFIG, h5, if_false, ite_false, if_neg]
      decide

/-! ## Claim C5: emission policy of the query logger -/

/-- C5 fails as stated: at `elapsed = slow_query_threshold_ms` exactly
(with `log_all_queries` off) the code emits nothing, because
`is_slow = elapsed_ms > threshold` is strict while the claim demands
emission at `elapsed ≥ threshold`; moreover a failing invocation below the
threshold emits a line even though the claimed condition is false. -/
theorem C5_counterexample :
    logQueryEmissions DEFAULT_CONFIG "RETURN 1" none "q" false none (.succ 100 0) = []
  ∧ DEFAULT_CONFIG.slow_query_threshold_ms ≤ (100 : ℚ)
  ∧ DEFAULT_CONFIG.log_all_queries = false
  ∧ logQueryEmissions DEFAULT_CONFIG "RETURN 1" none "q" false none
      (.fail 1 "boom" "TransientError") ≠ []
  ∧ ¬ (DEFAULT_CONFIG.slow_query_threshold_ms ≤ (1 : ℚ)) := by decide

/-- C5 amended: for successful invocations a structured line is emitted
iff `elapsed` is strictly greater than the threshold or `log_all_queries`
is set; failing invocations always emit an error line; on success with
`elapsed > 5 * threshold` the separate full-query line is additionally
emitted. -/
theorem C5_emission_amended (config : LogConfig) (cypher : String)
    (params : Option Params) (qn : String) (write : Bool) (req : Option ReqInfo)
    (elapsed : ℚ) (rc : Nat) (errText errType : String)
    (hthr : 0 ≤ config.slow_query_threshold_ms) :
    (logQueryEmissions config cypher params qn write req (.succ elapsed rc) ≠ [] ↔
      (config.slow_query_threshold_ms < elapsed ∨ config.log_all_queries = true))
  ∧ logQueryEmissions config cypher params qn write req (.fail elapsed errText errType) ≠ []
  ∧ (config.slow_query_threshold_ms * 5 < elapsed →
      Emitted.mk LogLevel.warning ("Full slow query:\n" ++ cypher) none ∈
        logQueryEmissions config cypher params qn write req (.succ elapsed rc)) := by
  refine ⟨?_, ?_, ?_⟩
  · by_cases hs : config.slow_query_threshold_ms < elapsed <;>
      by_cases hl : config.log_all_queries <;>
        simp [logQueryEmissions, hs, hl]
  · simp [logQueryEmissions]
  · intro h5
    have hle : config.slow_query_threshold_ms ≤ config.slow_query_threshold_ms * 5 := by
      linarith
    have hs : config.slow_query_threshold_ms < elapsed := lt_of_le_of_lt hle h5
    simp [logQueryEmissions, hs, h5]

/-- Witness for the amended C5 at the default configuration and a very
slow successful call (600 ms against the 100 ms threshold). -/
theorem C5_emission_amended_witness :
    (logQueryEmissions DEFAULT_CONFIG "MATCH (n) RETURN n" none "big" false none
        (.succ 600 2) ≠ [] ↔
      (DEFAULT_CONFIG.slow_query_threshold_ms < 600
        ∨ DEFAULT_CONFIG.log_all_queries = true))
  ∧ logQueryEmissions DEFAULT_CONFIG "MATCH (n) RETURN n" none "big" false none
      (.fail 600 "boom" "TransientError") ≠ []
  ∧ (DEFAULT_CONFIG.slow_query_threshold_ms * 5 < 600 →
      Emitted.mk LogLevel.warning ("Full slow query:\n" ++ "MATCH (n) RETURN n") none ∈
        logQueryEmissions DEFAULT_CONFIG "MATCH (n) RETURN n" none "big" false none
          (.succ 600 2)) :=
  C5_emission_amended DEFAULT_CONFIG "MATCH (n) RETURN n" none "big" false none
    600 2 "boom" "TransientError" (by norm_num [DEFAULT_CONFIG])

/-! ## Claim C6: queries after close -/

/-- A demonstration configuration with endpoint and principal present. -/
def demoCfg : Neo4jConfig := ⟨"bolt://localhost:7687", "neo4j", "secret-pw", "neo4j"⟩

/-- C6 fails on the code: after the first query builds driver 0 and
`close()` clears it, the next query attempt does not fail fast — it
constructs a brand-new Connection Handle (driver 1) and succeeds, because
`get_driver` lazily re-initializes whenever `_driver is None` and the
configuration is present. -/
theorem C6_counterexample :
    (get_driver demoCfg (closeService (get_driver demoCfg ⟨none, 0⟩).2)).1 = .ok 1
  ∧ (get_driver demoCfg (closeService (get_driver demoCfg ⟨none, 0⟩).2)).2.driver = some 1
  ∧ (get_driver demoCfg (closeService (get_driver demoCfg ⟨none, 0⟩).2)).2.nextId = 2 := by
  decide

/-- C6 amended: `close()` resets the handle to uninitialized; a query
attempted after `close()` silently reconnects — it constructs a fresh
Connection Handle — whenever the endpoint URI and the principal are
nonempty, and fails fast only when one of them is missing. -/
theorem C6_close_then_reconnect (cfg : Neo4jConfig) (s : ServiceState)
    (hu : cfg.uri ≠ "") (hn : cfg.username ≠ "") :
    (closeService s).driver = none
  ∧ (get_driver cfg (closeService s)).1 = .ok (closeService s).nextId
  ∧ (get_driver cfg (closeService s)).2.driver = some (closeService s).nextId := by
  have hdrv : (closeService s).driver = none := by
    cases h : s.driver <;> simp [closeService, h]
  refine ⟨hdrv, ?_, ?_⟩ <;> simp [get_driver, hdrv, hu, hn]

/-- Witness for the amended C6 at a concrete closed state. -/
theorem C6_close_then_reconnect_witness :
    (closeService ⟨some 0, 1⟩).driver = none
  ∧ (get_driver demoCfg (closeService ⟨some 0, 1⟩)).1 =
      .ok (closeService ⟨some 0, 1⟩).nextId
  ∧ (get_driver demoCfg (closeService ⟨some 0, 1⟩)).2.driver =
      some (closeService ⟨some 0, 1⟩).nextId :=
  C6_close_then_reconnect demoCfg ⟨some 0, 1⟩ (by decide) (by decide)

/-! ## Claim C7: required configuration at construction -/

/-- C7 fails on the code: with the credential and the database name both
empty but URI and username present, `get_driver` does not fail — it
constructs the driver, and a query proceeds under that configuration;
only URI and username are checked. -/
theorem C7_counterexample :
    (get_driver ⟨"bolt://localhost:7687", "neo4j", "", ""⟩ ⟨none, 0⟩).1 = .ok 0
  ∧ (get_driver ⟨"bolt://localhost:7687", "neo4j", "", ""⟩ ⟨none, 0⟩).2.driver = some 0 := by
  decide

/-- C7 amended: construction of the Connection Handle fails fast iff the
endpoint URI or the principal (username) is missing; a missing credential
or database name does not prevent construction (the database falls back
to the environment default). -/
theorem C7_construction_requirements (cfg : Neo4jConfig) (s : ServiceState)
    (h : s.driver = none) :
    ((get_driver cfg s).1 =
        .error "Neo4j configuration incomplete: set NEO4J_URI/NEO4J_USERNAME"
      ↔ (cfg.uri = "" ∨ cfg.username = ""))
  ∧ ((cfg.uri = "" ∨ cfg.username = "") → (get_driver cfg s).2 = s) := by
  constructor
  · by_cases hu : cfg.uri = "" <;> by_cases hn : cfg.username = "" <;>
      simp [get_driver, h, hu, hn]
  · intro hcond
    rcases hcond with hu | hn
    · simp [get_driver, h, hu]
    · by_cases hu : cfg.uri = "" <;> simp [get_driver, h, hu, hn]

/-- Witness for the amended C7 at an empty-URI configuration. -/
theorem C7_construction_requirements_witness :
    ((get_driver ⟨"", "neo4j", "pw", "neo4j"⟩ ⟨none, 5⟩).1 =
        .error "Neo4j configuration incomplete: set NEO4J_URI/NEO4J_USERNAME"
      ↔ ((Neo4jConfig.mk "" "neo4j" "pw" "neo4j").uri = ""
          ∨ (Neo4jConfig.mk "" "neo4j" "pw" "neo4j").username = ""))
  ∧ (((Neo4jConfig.mk "" "neo4j" "pw" "neo4j").uri = ""
      ∨ (Neo4jConfig.mk "" "neo4j" "pw" "neo4j").username = "") →
      (get_driver ⟨"", "neo4j", "pw", "neo4j"⟩ ⟨none, 5⟩).2 = ⟨none, 5⟩) :=
  C7_construction_requirements ⟨"", "neo4j", "pw", "neo4j"⟩ ⟨none, 5⟩ rfl

/-! ## Claim C8: idempotence of logger configuration -/

/-- C8 fails on the code: a second `configure_query_logging` call with the
same overrides re-merges the same configuration but attaches a second
file handler, so every record is thereafter written twice to the sink —
the observable behavior is not identical to the state after the first
call. -/
theorem C8_counterexample :
    sinkWritesPerRecord (configure_query_logging noOverrides initLoggerState) = 1
  ∧ sinkWritesPerRecord
      (configure_query_logging noOverrides
        (configure_query_logging noOverrides initLoggerState)) = 2
  ∧ configure_query_logging noOverrides
      (configure_query_logging noOverrides initLoggerState) ≠
    configure_query_logging noOverrides initLoggerState := by decide

/-- C8 amended: re-configuring with the same overrides is idempotent on
the stored effective configuration (the merge), but each call with
`log_to_file` enabled attaches one more file handler, so after `n` calls
every emitted record is written `n` times to the sink. -/
theorem C8_reconfigure_merge_idempotent (o : ConfigOverrides) (s : LoggerState) :
    (configure_query_logging o (configure_query_logging o s)).cfg =
      (configure_query_logging o s).cfg
  ∧ sinkWritesPerRecord (configure_query_logging o s) =
      sinkWritesPerRecord s + (if (mergeConfig o).log_to_file then 1 else 0) := by
  constructor
  · simp [configure_query_logging]
  · by_cases h : (mergeConfig o).log_to_file <;>
      simp [configure_query_logging, sinkWritesPerRecord, h]

/-! ## Claim C9: analyzer output order and truncation -/

/-- C9 fails as stated: with two groups `b` (seen first) and `a` tied at
the same average, the code returns them in first-occurrence order
`[b, a]` — Python's stable `sort(reverse=True)` does not break ties by
ascending group key. -/
theorem C9_counterexample :
    (get_slow_query_stats [⟨[("query_name", "b")], 100⟩, ⟨[("query_name", "a")], 100⟩]
        0 "query_name" 10).map Prod.fst = ["b", "a"]
  ∧ ¬ List.Sorted specClaimOrder
      (get_slow_query_stats [⟨[("query_name", "b")], 100⟩, ⟨[("query_name", "a")], 100⟩]
        0 "query_name" 10) := by
  constructor
  · simp [get_slow_query_stats, scanContexts, upsertStats, updateGroup, updateExamples,
      emptyGroup, groupKeyOf, avgGE, List.insertionSort, List.orderedInsert]
  · simp [get_slow_query_stats, scanContexts, upsertStats, updateGroup, updateExamples,
      emptyGroup, groupKeyOf, avgGE, List.insertionSort, List.orderedInsert,
      List.sorted_cons, specClaimOrder]
    decide

/-- C9 amended: for every fixed input the analyzer returns at most
`top_n` groups, in (weakly) descending order of average elapsed time;
ties keep the deterministic first-occurrence order produced by the
stable sort rather than ascending group key. -/
theorem C9_top_n_sorted (ctxs : List Ctx) (min_time_ms : ℚ) (group_by : String)
    (top_n : Nat) :
    (get_slow_query_stats ctxs min_time_ms group_by top_n).length ≤ top_n
  ∧ List.Sorted avgGE (get_slow_query_stats ctxs min_time_ms group_by top_n) := by
  constructor
  · exact List.length_take_le top_n _
  · exact (List.sorted_insertionSort avgGE
      (scanContexts min_time_ms group_by ctxs)).sublist
      (List.take_sublist top_n _)
